import Mathlib

/-!
Shallow embedding of the sqlite migration driver
(`src/database/sqlite/sqlite.go`, package `sqlite`).

The driver talks to an SQLite engine through `db.Exec`.  The embedding
models the engine as an explicit state (`Engine`): the visible contents of
the bookkeeping table plus the stack of active savepoints.  Statement
batches handed to `db.Exec` are modelled as `List Stmt`; go-sqlite3
executes the statements of a batch sequentially and stops at the first
failing one, keeping the effects of the successful prefix.  Engine-level
faults that the abstract engine cannot produce by itself (I/O errors,
busy errors, a failing `PRAGMA`/`BEGIN`/`COMMIT`, ...) are injected
through a fault oracle `fault : List Stmt → Option EngErr` consulted by
`exec` for each batch.

The placeholder substitution performed by `Sqlite.exec`
(`strings.Replace(op, "${MIGRATIONS_TABLE}", s.migrationsTable, -1)`)
is a pure string transformation and is modelled separately, at the string
level, by `substMigrationsTable` / `execText` / `runText`; the stateful
model works at statement level.
-/

namespace MigrateSqlite

/-- A row of the bookkeeping table: `(version, dirty)`.  The Go column
types are `bigint` and `boolean`; `version` is a Go `int`, modelled as
`Int`. -/
abbrev Row := Int × Bool

/-- One SQL statement as the engine sees it.  The driver's own statements
are those `sqlite.go` builds (`PRAGMA locking_mode = EXCLUSIVE`,
`BEGIN EXCLUSIVE`, `COMMIT`, `SAVEPOINT n`, `RELEASE n`,
`ROLLBACK TO n`, `DELETE FROM tbl`, `INSERT INTO tbl ... VALUES (v, d)`);
a caller-supplied migration script is an arbitrary list of statements, and
`invalid` stands for a statement the engine rejects (e.g. a syntax
error). -/
inductive Stmt where
  | pragmaLockingExclusive
  | beginExclusive
  | commit
  | savepoint (name : String)
  | release (name : String)
  | rollbackTo (name : String)
  | deleteAll
  | insert (version : Int) (dirty : Bool)
  | invalid
  deriving DecidableEq, Repr

/-- Errors produced by the engine itself. -/
inductive EngErr where
  | sqlError
  | noSuchSavepoint (name : String)
  | constraintViolation
  deriving DecidableEq, Repr

/-- Errors returned by the driver: `database.ErrLocked`, a
`database.Error{OrigErr, Query}` wrapping an engine fault together with
the offending statement batch, or an `os.Remove` failure. -/
inductive Err where
  | locked
  | db (query : List Stmt) (orig : EngErr)
  | removeFailed
  deriving DecidableEq, Repr

/-- The SQLite engine as visible through the driver's single connection:
the current contents of the bookkeeping table and the stack of active
savepoints (topmost first), each with the table snapshot taken when it
was created.  `BEGIN`/`COMMIT`/`PRAGMA` durability is outside the scope
of the model; `COMMIT` closes the transaction, releasing all
savepoints. -/
structure Engine where
  rows : List Row
  saved : List (String × List Row)
  deriving DecidableEq, Repr

/-- Lookup for `RELEASE name`: drop the topmost savepoint named `name`
and every savepoint nested inside it; `none` when no such savepoint
exists. -/
def releaseFind (n : String) : List (String × List Row) → Option (List (String × List Row))
  | [] => none
  | (m, _r) :: rest => if m = n then some rest else releaseFind n rest

/-- Lookup for `ROLLBACK TO name`: the table snapshot of the topmost
savepoint named `name`, and the savepoint stack with the savepoints
nested inside it discarded but `name` itself kept active (SQLite
semantics); `none` when no such savepoint exists. -/
def rollbackFind (n : String) : List (String × List Row) →
    Option (List Row × List (String × List Row))
  | [] => none
  | (m, r) :: rest => if m = n then some (r, (m, r) :: rest) else rollbackFind n rest

/-- Execution of one statement on the engine.  `insert` honours the
`version ... primary key` constraint of the bookkeeping table. -/
def Engine.apply (e : Engine) : Stmt → Option EngErr × Engine
  | .pragmaLockingExclusive => (none, e)
  | .beginExclusive => (none, e)
  | .commit => (none, { e with saved := [] })
  | .savepoint n => (none, { e with saved := (n, e.rows) :: e.saved })
  | .release n =>
    match releaseFind n e.saved with
    | none => (some (.noSuchSavepoint n), e)
    | some rest => (none, { e with saved := rest })
  | .rollbackTo n =>
    match rollbackFind n e.saved with
    | none => (some (.noSuchSavepoint n), e)
    | some (r, st) => (none, { rows := r, saved := st })
  | .deleteAll => (none, { e with rows := [] })
  | .insert v d =>
    if e.rows.any (fun r => r.1 = v) then (some .constraintViolation, e)
    else (none, { e with rows := e.rows ++ [(v, d)] })
  | .invalid => (some .sqlError, e)

/-- Model of `db.Exec` on a statement batch: go-sqlite3 executes the
statements in order and stops at the first error, keeping the effects of
the successful prefix. -/
def dbExec : List Stmt → Engine → Option EngErr × Engine
  | [], e => (none, e)
  | st :: rest, e =>
    match e.apply st with
    | (some err, e') => (some err, e')
    | (none, e') => dbExec rest e'

/-- A fault oracle: injected engine failures for a given batch, modelling
error sources the abstract engine does not produce by itself. -/
abbrev Fault := List Stmt → Option EngErr

/-- The fault-free oracle: every batch reaches the engine. -/
def fault0 : Fault := fun _ => none

/-- The connection owned by the driver: the engine state, whether the
handle is open (`Close` flips it), and the trace of statement batches
handed to `db.Exec`, in order. -/
structure Conn where
  eng : Engine
  isOpen : Bool
  trace : List (List Stmt)
  deriving DecidableEq, Repr

/-- The `Sqlite` driver struct of `sqlite.go`: bookkeeping table name,
database file path, the process-local lock flag and the savepoint-name
counter `txid`.  The `db *sql.DB` handle is modelled by `Conn`, threaded
explicitly. -/
structure Sqlite where
  migrationsTable : String
  dbPath : String
  locked : Bool
  txid : Int
  deriving DecidableEq, Repr

/-- The reserved placeholder token that `exec` substitutes
(`${MIGRATIONS_TABLE}`, braces escaped here). -/
def migrationsTablePlaceholder : String := "$\x7bMIGRATIONS_TABLE\x7d"

/-- Model of Go `strings.Replace(s, old, new, -1)` on character lists:
replace every non-overlapping occurrence of `pat`, scanning left to
right.  The fuel argument bounds the recursion; `stringsReplaceAll`
supplies the input length, which suffices because every step consumes at
least one character when `pat` is nonempty (and the one pattern used,
`migrationsTablePlaceholder`, is nonempty). -/
def replaceAllFuel (pat rep : List Char) : Nat → List Char → List Char
  | _, [] => []
  | 0, l => l
  | fuel + 1, c :: rest =>
    if pat.isPrefixOf (c :: rest) then
      rep ++ replaceAllFuel pat rep fuel (List.drop pat.length (c :: rest))
    else
      c :: replaceAllFuel pat rep fuel rest

/-- Replacement of every occurrence of `pat` by `rep` in `l`. -/
def stringsReplaceAll (pat rep l : List Char) : List Char :=
  replaceAllFuel pat rep l.length l

/-- Whether `pat` occurs as a contiguous sublist of the input. -/
def containsPat (pat : List Char) : List Char → Bool
  | [] => pat.isPrefixOf []
  | c :: rest => pat.isPrefixOf (c :: rest) || containsPat pat rest

/-- The placeholder-substitution step of `Sqlite.exec`:
`strings.Replace(op, "${MIGRATIONS_TABLE}", s.migrationsTable, -1)`
(replace all occurrences). -/
def substMigrationsTable (migrationsTable op : String) : String :=
  ⟨stringsReplaceAll migrationsTablePlaceholder.data migrationsTable.data op.data⟩

/-- The exact text handed to `db.Exec` when `s.exec(op)` runs: the query
after placeholder substitution. -/
def execText (s : Sqlite) (op : String) : String :=
  substMigrationsTable s.migrationsTable op

/-- The exact text handed to `db.Exec` by `Run`: `Run` reads the whole
script and calls `s.exec(string(buf))` on it. -/
def runText (s : Sqlite) (script : String) : String :=
  execText s script

/-- Model of `s.exec(op)`: hand the batch to `db.Exec` (after the
substitution modelled by `execText`); on failure wrap the engine error
together with the query into a `database.Error`.  The batch is recorded
in the trace whether it succeeds or fails. -/
def Sqlite.exec (fault : Fault) (c : Conn) (ops : List Stmt) : Option Err × Conn :=
  match fault ops with
  | some e => (some (.db ops e), { c with trace := c.trace ++ [ops] })
  | none =>
    match dbExec ops c.eng with
    | (some e, eng') => (some (.db ops e), { eng := eng', isOpen := c.isOpen, trace := c.trace ++ [ops] })
    | (none, eng') => (none, { eng := eng', isOpen := c.isOpen, trace := c.trace ++ [ops] })

/-- Model of `Lock()`: if already locked return `database.ErrLocked`;
otherwise set `locked = true` *first*, then execute
`PRAGMA locking_mode = EXCLUSIVE` and `BEGIN EXCLUSIVE`, returning the
first error.  Note that the source never resets `locked` on a statement
failure. -/
def Sqlite.Lock (s : Sqlite) (fault : Fault) (c : Conn) : Option Err × Sqlite × Conn :=
  if s.locked then (some .locked, s, c)
  else
    let s' : Sqlite := { s with locked := true }
    match Sqlite.exec fault c [.pragmaLockingExclusive] with
    | (some e, c') => (some e, s', c')
    | (none, c') =>
      match Sqlite.exec fault c' [.beginExclusive] with
      | (some e, c'') => (some e, s', c'')
      | (none, c'') => (none, s', c'')

/-- Model of `Unlock()`: if not locked, succeed as a no-op; otherwise
execute `COMMIT`.  Note that the source never resets `locked` to
`false`. -/
def Sqlite.Unlock (s : Sqlite) (fault : Fault) (c : Conn) : Option Err × Sqlite × Conn :=
  if !s.locked then (none, s, c)
  else
    match Sqlite.exec fault c [.commit] with
    | (some e, c') => (some e, s, c')
    | (none, c') => (none, s, c')

/-- Model of `Run(migration)`: read the whole script (`ioutil.ReadAll`,
modelled by the script being given directly) and hand it to `s.exec` as
one batch.  No savepoint wrapper is involved. -/
def Sqlite.Run (s : Sqlite) (fault : Fault) (c : Conn) (script : List Stmt) :
    Option Err × Conn :=
  Sqlite.exec fault c script

/-- The savepoint name `fmt.Sprintf("txn_%d", atomic.AddInt64(&s.txid, 1))`
computed for the new counter value. -/
def txname (txid : Int) : String :=
  "txn_" ++ toString txid

/-- The main flow of `transactionally` before the deferred cleanup runs:
`SAVEPOINT`, then the thunk, then (on thunk success) `RELEASE` with its
result discarded.  Returns the error, the `success` flag and the
connection as they stand when the function body exits. -/
def transactionallyBody (fault : Fault) (c : Conn) (n : String)
    (thunk : Conn → Option Err × Conn) : Option Err × Bool × Conn :=
  match Sqlite.exec fault c [.savepoint n] with
  | (some e, c') => (some e, false, c')
  | (none, c') =>
    match thunk c' with
    | (some e, c'') => (some e, false, c'')
    | (none, c'') =>
      let (_, c''') := Sqlite.exec fault c'' [.release n]
      (none, true, c''')

/-- Model of `transactionally(thunk)`: bump `txid`, create the savepoint,
run the thunk, release on success; the deferred function issues
`ROLLBACK TO txname` whenever `success` is still false, silently
ignoring rollback failures, and the body's error is returned
unchanged. -/
def Sqlite.transactionally (s : Sqlite) (fault : Fault) (c : Conn)
    (thunk : Conn → Option Err × Conn) : Option Err × Sqlite × Conn :=
  let s' : Sqlite := { s with txid := s.txid + 1 }
  let n := txname s'.txid
  match transactionallyBody fault c n thunk with
  | (err, true, c') => (err, s', c')
  | (err, false, c') =>
    let (_, c'') := Sqlite.exec fault c' [.rollbackTo n]
    (err, s', c'')

/-- Model of `SetVersion(version, dirty)`: inside `transactionally`,
delete all rows of the bookkeeping table, then insert `(version, dirty)`
only when `version >= 0`. -/
def Sqlite.SetVersion (s : Sqlite) (fault : Fault) (c : Conn)
    (version : Int) (dirty : Bool) : Option Err × Sqlite × Conn :=
  Sqlite.transactionally s fault c (fun c' =>
    match Sqlite.exec fault c' [.deleteAll] with
    | (some e, c'') => (some e, c'')
    | (none, c'') =>
      if version ≥ 0 then Sqlite.exec fault c'' [.insert version dirty]
      else (none, c''))

/-- Model of `Version()`: `SELECT version, dirty FROM tbl LIMIT 1`
through `QueryRow`; `sql.ErrNoRows` (empty table) maps to
`(NilVersion = -1, false, nil)`. -/
def Sqlite.Version (c : Conn) : Int × Bool × Option Err :=
  match c.eng.rows.head? with
  | none => (-1, false, none)
  | some (v, d) => (v, d, none)

/-- Model of `Close()`: close the handle. -/
def Sqlite.Close (c : Conn) : Conn :=
  { c with isOpen := false }

/-- The filesystem visible to `os.Remove`: the set of existing paths. -/
structure World where
  files : List String
  deriving DecidableEq, Repr

/-- Model of `os.Remove(path)`: delete the file, or fail when it does
not exist. -/
def osRemove (path : String) (w : World) : Option Err × World :=
  if path ∈ w.files then (none, { files := w.files.erase path })
  else (some .removeFailed, w)

/-- Model of `Drop()`: `return os.Remove(s.dbPath)` — nothing else is
touched, so the driver struct and the connection are returned
unchanged. -/
def Sqlite.Drop (s : Sqlite) (c : Conn) (w : World) :
    Option Err × Sqlite × Conn × World :=
  let (e, w') := osRemove s.dbPath w
  (e, s, c, w')

/-- A concrete driver instance with the default bookkeeping-table name,
used by concrete witnesses and counterexamples. -/
def s0 : Sqlite :=
  { migrationsTable := "schema_migrations", dbPath := "/data/app.db",
    locked := false, txid := 0 }

/-- A fresh connection: empty bookkeeping table, no savepoints, empty
trace. -/
def c0 : Conn := { eng := { rows := [], saved := [] }, isOpen := true, trace := [] }

/-- A fault oracle failing exactly the `PRAGMA locking_mode = EXCLUSIVE`
statement. -/
def faultPragma : Fault :=
  fun ops => if ops = [.pragmaLockingExclusive] then some .sqlError else none

/-- A fault oracle failing exactly the `RELEASE` statements. -/
def faultRelease : Fault :=
  fun ops => match ops with
    | [.release _] => some .sqlError
    | _ => none

theorem setVersion_fault0 (s : Sqlite) (c : Conn) (v : Int) (d : Bool) :
    Sqlite.SetVersion s fault0 c v d =
      (none, { s with txid := s.txid + 1 },
       { eng := { rows := if v ≥ 0 then [(v, d)] else [], saved := c.eng.saved },
         isOpen := c.isOpen,
         trace := c.trace ++ [[Stmt.savepoint (txname (s.txid + 1))], [Stmt.deleteAll]] ++
           (if v ≥ 0 then [[Stmt.insert v d]] else []) ++
           [[Stmt.release (txname (s.txid + 1))]] }) := by
  by_cases hv : v ≥ 0 <;>
    simp [Sqlite.SetVersion, Sqlite.transactionally, transactionallyBody, Sqlite.exec,
      fault0, dbExec, Engine.apply, releaseFind, hv]

/-- C5: with every statement reaching the engine, `SetVersion(v, d)`
succeeds, first deletes all rows of the bookkeeping table and then
inserts exactly the single row `(v, d)` when `v >= 0`, while `v < 0`
leaves the table with zero rows — so the table ends with at most one
row. -/
theorem C5_SetVersion_single_row (s : Sqlite) (c : Conn) (v : Int) (d : Bool) :
    (Sqlite.SetVersion s fault0 c v d).1 = none ∧
    (Sqlite.SetVersion s fault0 c v d).2.2.eng.rows = (if v ≥ 0 then [(v, d)] else []) ∧
    (Sqlite.SetVersion s fault0 c v d).2.2.eng.rows.length ≤ 1 ∧
    (Sqlite.SetVersion s fault0 c v d).2.2.trace =
      c.trace ++ [[Stmt.savepoint (txname (s.txid + 1))], [Stmt.deleteAll]] ++
        (if v ≥ 0 then [[Stmt.insert v d]] else []) ++ [[Stmt.release (txname (s.txid + 1))]] := by
  rw [setVersion_fault0]
  refine ⟨rfl, rfl, ?_, rfl⟩
  by_cases hv : v ≥ 0 <;> simp [hv]

/-- C6: a fault-free `SetVersion(v, d)` followed by `Version()` returns
`(v, d, nil)` when `v >= 0` and `(-1, false, nil)` when `v < 0`; and
`Version()` on any connection whose bookkeeping table is empty is not an
error and returns `(-1, false, nil)`. -/
theorem C6_roundtrip (s : Sqlite) (c : Conn) (v : Int) (d : Bool) :
    Sqlite.Version (Sqlite.SetVersion s fault0 c v d).2.2 =
      (if v ≥ 0 then (v, d, none) else (-1, false, none)) ∧
    (∀ c' : Conn, c'.eng.rows = [] → Sqlite.Version c' = (-1, false, none)) := by
  constructor
  · rw [setVersion_fault0]
    by_cases hv : v ≥ 0 <;> simp [hv, Sqlite.Version]
  · intro c' h
    unfold Sqlite.Version
    simp [h]

theorem C6_witness :
    Sqlite.Version (Sqlite.SetVersion s0 fault0 c0 5 false).2.2 = (5, false, none) ∧
    Sqlite.Version (Sqlite.SetVersion s0 fault0 c0 (-1) false).2.2 = (-1, false, none) ∧
    Sqlite.Version c0 = (-1, false, none) := by
  refine ⟨?_, ?_, ?_⟩
  · have h := (C6_roundtrip s0 c0 5 false).1
    simpa using h
  · have h := (C6_roundtrip s0 c0 (-1) false).1
    simpa using h
  · exact (C6_roundtrip s0 c0 0 false).2 c0 rfl

end MigrateSqlite

namespace MigrateSqlite

theorem exec_trace (fault : Fault) (c : Conn) (ops : List Stmt) :
    (Sqlite.exec fault c ops).2.trace = c.trace ++ [ops] := by
  unfold Sqlite.exec
  cases fault ops with
  | some e => rfl
  | none =>
    cases h : dbExec ops c.eng with
    | mk o eng' => cases o <;> simp [h]

theorem Lock_locked (s : Sqlite) (fault : Fault) (c : Conn) :
    (Sqlite.Lock s fault c).2.1.locked = true := by
  unfold Sqlite.Lock
  by_cases h : s.locked
  · simp [h]
  · simp only [h, if_neg]
    cases h1 : Sqlite.exec fault c [Stmt.pragmaLockingExclusive] with
    | mk o1 c1 =>
      cases o1 with
      | some e => simp [h1]
      | none =>
        simp only [h1]
        cases h2 : Sqlite.exec fault c1 [Stmt.beginExclusive] with
        | mk o2 c2 => cases o2 <;> simp [h2]

theorem Lock_of_locked (s : Sqlite) (fault : Fault) (c : Conn) (h : s.locked = true) :
    Sqlite.Lock s fault c = (some Err.locked, s, c) := by
  unfold Sqlite.Lock
  simp [h]

/-- C8: a second `Lock()` without an intervening `Unlock()` returns the
already-locked error and leaves the driver and connection untouched (no
statement is issued: the trace is unchanged); `Unlock()` without a prior
`Lock()` returns success with no state change and no statement issued. -/
theorem C8_lock_exclusivity_unlock_noop (s : Sqlite) (fault fault2 : Fault) (c : Conn) :
    Sqlite.Lock (Sqlite.Lock s fault c).2.1 fault2 (Sqlite.Lock s fault c).2.2 =
      (some Err.locked, (Sqlite.Lock s fault c).2.1, (Sqlite.Lock s fault c).2.2) ∧
    (s.locked = false → Sqlite.Unlock s fault c = (none, s, c)) := by
  constructor
  · exact Lock_of_locked _ fault2 _ (Lock_locked s fault c)
  · intro h
    unfold Sqlite.Unlock
    simp [h]

theorem C8_witness :
    Sqlite.Lock (Sqlite.Lock s0 fault0 c0).2.1 fault0 (Sqlite.Lock s0 fault0 c0).2.2 =
      (some Err.locked, (Sqlite.Lock s0 fault0 c0).2.1, (Sqlite.Lock s0 fault0 c0).2.2) ∧
    Sqlite.Unlock s0 fault0 c0 = (none, s0, c0) :=
  ⟨(C8_lock_exclusivity_unlock_noop s0 fault0 fault0 c0).1,
   (C8_lock_exclusivity_unlock_noop s0 fault0 fault0 c0).2 rfl⟩

/-- C2 (code bug): on a fresh, unlocked driver, a `Lock()` whose
`PRAGMA locking_mode = EXCLUSIVE` statement fails returns the error, yet
the driver's lock flag is already `true` — the source sets `locked`
before executing the statements and never resets it on failure, so the
state does not remain unlocked and a retry returns the already-locked
error. -/
theorem C2_lock_failure_leaves_locked :
    s0.locked = false ∧
    (Sqlite.Lock s0 faultPragma c0).1 =
      some (Err.db [Stmt.pragmaLockingExclusive] EngErr.sqlError) ∧
    (Sqlite.Lock s0 faultPragma c0).2.1.locked = true ∧
    (Sqlite.Lock (Sqlite.Lock s0 faultPragma c0).2.1 fault0
        (Sqlite.Lock s0 faultPragma c0).2.2).1 = some Err.locked := by
  refine ⟨rfl, rfl, rfl, rfl⟩

/-- C3 (code bug): after a successful `Lock()` and a successful
`Unlock()` (all statements succeed), a subsequent `Lock()` on the same
instance returns the already-locked error: `Unlock` commits but never
sets `locked` back to `false`. -/
theorem C3_unlock_never_unlocks :
    (Sqlite.Lock s0 fault0 c0).1 = none ∧
    (Sqlite.Unlock (Sqlite.Lock s0 fault0 c0).2.1 fault0 (Sqlite.Lock s0 fault0 c0).2.2).1 = none ∧
    (Sqlite.Unlock (Sqlite.Lock s0 fault0 c0).2.1 fault0 (Sqlite.Lock s0 fault0 c0).2.2).2.1.locked = true ∧
    (Sqlite.Lock
      (Sqlite.Unlock (Sqlite.Lock s0 fault0 c0).2.1 fault0 (Sqlite.Lock s0 fault0 c0).2.2).2.1
      fault0
      (Sqlite.Unlock (Sqlite.Lock s0 fault0 c0).2.1 fault0 (Sqlite.Lock s0 fault0 c0).2.2).2.2).1
      = some Err.locked := by
  refine ⟨rfl, rfl, rfl, rfl⟩

/-- C10: `Drop()` removes exactly the file at the stored database path
and nothing else: the driver struct and the connection (handle open,
lock state, table name, savepoint counter) are returned unchanged
whether or not the removal succeeds, and every other path's existence is
unaffected. -/
theorem C10_drop_frame (s : Sqlite) (c : Conn) (w : World) :
    Sqlite.Drop s c w =
      ((if s.dbPath ∈ w.files then none else some Err.removeFailed), s, c,
       ⟨if s.dbPath ∈ w.files then w.files.erase s.dbPath else w.files⟩) ∧
    (∀ p : String, p ≠ s.dbPath →
      (p ∈ (Sqlite.Drop s c w).2.2.2.files ↔ p ∈ w.files)) := by
  constructor
  · unfold Sqlite.Drop osRemove
    by_cases h : s.dbPath ∈ w.files <;> simp [h]
  · intro p hp
    unfold Sqlite.Drop osRemove
    by_cases h : s.dbPath ∈ w.files <;> simp [h]
    exact List.mem_erase_of_ne hp

theorem C10_witness :
    Sqlite.Drop s0 c0 { files := ["/data/app.db", "/etc/hosts"] } =
      (none, s0, c0, { files := ["/etc/hosts"] }) ∧
    ("/etc/hosts" ∈ (Sqlite.Drop s0 c0 { files := ["/data/app.db", "/etc/hosts"] }).2.2.2.files ↔
      "/etc/hosts" ∈ ["/data/app.db", "/etc/hosts"]) := by
  refine ⟨?_, ?_⟩
  · have h := (C10_drop_frame s0 c0 { files := ["/data/app.db", "/etc/hosts"] }).1
    simpa using h
  · exact (C10_drop_frame s0 c0 { files := ["/data/app.db", "/etc/hosts"] }).2 "/etc/hosts" (by decide)

end MigrateSqlite

namespace MigrateSqlite

/-- C7: when the thunk fails inside `transactionally`, the wrapper
issues `ROLLBACK TO` the savepoint on exit, returns the thunk's original
error unchanged whatever the rollback statement does (a rollback failure
is swallowed and never shadows it), and — when the rollback reaches the
engine and the savepoint is still active — restores the table to the
snapshot taken when the savepoint was created, undoing the statements
executed since. -/
theorem C7_transactionally_rollback (s : Sqlite) (fault : Fault) (c c₁ c₂ : Conn)
    (thunk : Conn → Option Err × Conn) (e : Err) (n : String)
    (hn : n = txname (s.txid + 1))
    (hsp : Sqlite.exec fault c [Stmt.savepoint n] = (none, c₁))
    (hthunk : thunk c₁ = (some e, c₂)) :
    (Sqlite.transactionally s fault c thunk).1 = some e ∧
    (Sqlite.transactionally s fault c thunk).2.2.trace = c₂.trace ++ [[Stmt.rollbackTo n]] ∧
    (∀ snap st, fault [Stmt.rollbackTo n] = none →
      rollbackFind n c₂.eng.saved = some (snap, st) →
      (Sqlite.transactionally s fault c thunk).2.2.eng = { rows := snap, saved := st }) := by
  subst hn
  unfold Sqlite.transactionally transactionallyBody
  simp only [hsp, hthunk]
  refine ⟨?_, ?_, ?_⟩
  · rcases hrb : Sqlite.exec fault c₂ [Stmt.rollbackTo (txname (s.txid + 1))] with ⟨r, c''⟩
    simp [hrb]
  · rcases hrb : Sqlite.exec fault c₂ [Stmt.rollbackTo (txname (s.txid + 1))] with ⟨r, c''⟩
    simp only [hrb]
    have := exec_trace fault c₂ [Stmt.rollbackTo (txname (s.txid + 1))]
    rw [hrb] at this
    exact this
  · intro snap st hf hfind
    unfold Sqlite.exec
    simp only [hf, dbExec, Engine.apply, hfind]

/-- C9: on the success path of `transactionally` the result of the
`RELEASE` statement is discarded: whenever the savepoint statement
succeeds and the thunk succeeds, the wrapper returns success even when
the release fails, and the release batch is the last statement
issued. -/
theorem C9_release_failure_ignored (s : Sqlite) (fault : Fault) (c c₁ c₂ : Conn)
    (thunk : Conn → Option Err × Conn) (n : String)
    (hn : n = txname (s.txid + 1))
    (hsp : Sqlite.exec fault c [Stmt.savepoint n] = (none, c₁))
    (hthunk : thunk c₁ = (none, c₂)) :
    (Sqlite.transactionally s fault c thunk).1 = none ∧
    (Sqlite.transactionally s fault c thunk).2.2.trace = c₂.trace ++ [[Stmt.release n]] := by
  subst hn
  unfold Sqlite.transactionally transactionallyBody
  simp only [hsp, hthunk]
  rcases hrl : Sqlite.exec fault c₂ [Stmt.release (txname (s.txid + 1))] with ⟨r, c''⟩
  refine ⟨by simp [hrl], ?_⟩
  simp only [hrl]
  have := exec_trace fault c₂ [Stmt.release (txname (s.txid + 1))]
  rw [hrl] at this
  exact this

theorem C7_witness :
    (Sqlite.transactionally s0 fault0 c0
        (fun c => Sqlite.exec fault0 c [Stmt.insert 7 true, Stmt.invalid])).1 =
      some (Err.db [Stmt.insert 7 true, Stmt.invalid] EngErr.sqlError) ∧
    (Sqlite.transactionally s0 fault0 c0
        (fun c => Sqlite.exec fault0 c [Stmt.insert 7 true, Stmt.invalid])).2.2.eng =
      { rows := [], saved := [("txn_1", [])] } := by
  have h := C7_transactionally_rollback s0 fault0 c0
      ⟨⟨[], [("txn_1", [])]⟩, true, [[Stmt.savepoint "txn_1"]]⟩
      ⟨⟨[(7, true)], [("txn_1", [])]⟩, true,
        [[Stmt.savepoint "txn_1"], [Stmt.insert 7 true, Stmt.invalid]]⟩
      (fun c => Sqlite.exec fault0 c [Stmt.insert 7 true, Stmt.invalid])
      (Err.db [Stmt.insert 7 true, Stmt.invalid] EngErr.sqlError) "txn_1" rfl rfl rfl
  exact ⟨h.1, h.2.2 [] [("txn_1", [])] rfl rfl⟩

theorem C9_witness :
    faultRelease [Stmt.release "txn_1"] = some EngErr.sqlError ∧
    (Sqlite.transactionally s0 faultRelease c0
        (fun c => Sqlite.exec faultRelease c [Stmt.deleteAll])).1 = none := by
  refine ⟨rfl, ?_⟩
  exact (C9_release_failure_ignored s0 faultRelease c0
      ⟨⟨[], [("txn_1", [])]⟩, true, [[Stmt.savepoint "txn_1"]]⟩
      ⟨⟨[], [("txn_1", [])]⟩, true, [[Stmt.savepoint "txn_1"], [Stmt.deleteAll]]⟩
      (fun c => Sqlite.exec faultRelease c [Stmt.deleteAll])
      "txn_1" rfl rfl rfl).1

end MigrateSqlite

namespace MigrateSqlite

theorem dbExec_append (xs ys : List Stmt) (e : Engine) :
    dbExec (xs ++ ys) e =
      match dbExec xs e with
      | (some err, e') => (some err, e')
      | (none, e') => dbExec ys e' := by
  induction xs generalizing e with
  | nil => rfl
  | cons st rest ih =>
    simp only [List.cons_append, dbExec]
    cases hap : e.apply st with
    | mk o e1 => cases o <;> simp [ih]

/-- C1 counterexample: at the concrete script `INSERT(1,false); INVALID`
on a fresh connection, `Run` fails but the first statement's effect
remains visible — the bookkeeping table is not empty afterwards, and the
trace shows the script was the only batch issued, with no savepoint
statement around it. -/
theorem C1_counterexample :
    (Sqlite.Run s0 fault0 c0 [Stmt.insert 1 false, Stmt.invalid]).1 =
      some (Err.db [Stmt.insert 1 false, Stmt.invalid] EngErr.sqlError) ∧
    (Sqlite.Run s0 fault0 c0 [Stmt.insert 1 false, Stmt.invalid]).2.eng.rows = [(1, false)] ∧
    (Sqlite.Run s0 fault0 c0 [Stmt.insert 1 false, Stmt.invalid]).2.eng.rows ≠ [] ∧
    (Sqlite.Run s0 fault0 c0 [Stmt.insert 1 false, Stmt.invalid]).2.trace =
      [[Stmt.insert 1 false, Stmt.invalid]] := by
  refine ⟨rfl, rfl, by decide, rfl⟩

/-- C1 (amended): `Run` hands the script to the engine directly through
`exec`, with no savepoint wrapper: it issues exactly the one script
batch, and when a prefix of the script succeeds and the next statement
is invalid, `Run` returns the engine's error while the prefix's effects
remain visible. -/
theorem C1_run_no_savepoint (s : Sqlite) (fault : Fault) (c : Conn)
    (good : List Stmt) (e' : Engine)
    (hf : fault (good ++ [Stmt.invalid]) = none)
    (hgood : dbExec good c.eng = (none, e')) :
    Sqlite.Run s fault c (good ++ [Stmt.invalid]) =
      (some (Err.db (good ++ [Stmt.invalid]) EngErr.sqlError),
       { eng := e', isOpen := c.isOpen, trace := c.trace ++ [good ++ [Stmt.invalid]] }) := by
  unfold Sqlite.Run Sqlite.exec
  rw [hf, dbExec_append, hgood]
  rfl

theorem C1_witness :
    Sqlite.Run s0 fault0 c0 [Stmt.insert 1 false, Stmt.invalid] =
      (some (Err.db [Stmt.insert 1 false, Stmt.invalid] EngErr.sqlError),
       { eng := ⟨[(1, false)], []⟩, isOpen := true,
         trace := [[Stmt.insert 1 false, Stmt.invalid]] }) := by
  have h := C1_run_no_savepoint s0 fault0 c0 [Stmt.insert 1 false] ⟨[(1, false)], []⟩ rfl rfl
  simpa using h

theorem replaceAllFuel_of_not_contains (pat rep : List Char) :
    ∀ (fuel : Nat) (l : List Char), containsPat pat l = false →
      replaceAllFuel pat rep fuel l = l := by
  intro fuel
  induction fuel with
  | zero => intro l _; cases l <;> rfl
  | succ fuel ih =>
    intro l hl
    cases l with
    | nil => rfl
    | cons ch rest =>
      simp only [containsPat, Bool.or_eq_false_iff] at hl
      simp [replaceAllFuel, hl.1, ih rest hl.2]

/-- C4 counterexample: a caller script containing the placeholder token
is altered before reaching the engine — the bytes `Run` hands to the
engine are not the script bytes. -/
theorem C4_counterexample :
    runText s0 "DROP TABLE $\x7bMIGRATIONS_TABLE\x7d" = "DROP TABLE schema_migrations" ∧
    runText s0 "DROP TABLE $\x7bMIGRATIONS_TABLE\x7d" ≠ "DROP TABLE $\x7bMIGRATIONS_TABLE\x7d" := by
  refine ⟨by decide, by decide⟩

/-- C4 (amended): the placeholder substitution is applied to every batch
executed through `exec`, including caller scripts passed to `Run`: the
text handed to the engine is the script with every occurrence of the
placeholder token replaced by the configured bookkeeping-table name —
and therefore equals the script bytes exactly when the script does not
contain the token. -/
theorem C4_run_substitution (s : Sqlite) (script : String) :
    runText s script = substMigrationsTable s.migrationsTable script ∧
    (containsPat migrationsTablePlaceholder.data script.data = false →
      runText s script = script) := by
  refine ⟨rfl, fun h => ?_⟩
  unfold runText execText substMigrationsTable stringsReplaceAll
  rw [replaceAllFuel_of_not_contains _ _ _ _ h]

theorem C4_witness :
    runText s0 "CREATE TABLE t(x int)" = "CREATE TABLE t(x int)" :=
  (C4_run_substitution s0 "CREATE TABLE t(x int)").2 (by decide)

end MigrateSqlite
